import Mathlib

set_option maxRecDepth 100000

/-!
Shallow embedding of the gpNvm non-volatile attribute store (gpNvm.c / gpNvm.h).

Machine integers are modelled as `Nat` with explicit truncation (`% 256` for
`UInt8` reads/writes, `% 65536` for `UInt16`).  The two global byte arrays and
the index table are modelled as total functions `Nat → Nat`; the file that
emulates the non-volatile memory is modelled as a byte function plus a size
(`ftell` at end).  Pointer-validity (NULL) checks of the C code are not
modelled: buffers are always-valid functions, and `gpNvm_GetAttribute`
returns its outputs as an `Option` (`none` = the output pointers were never
written).  `fopen` is assumed to succeed, as the file system is outside the
program.
-/

namespace GpNvm

/- Error codes, in the order of `enum gpNvm_ErrorStatus` in gpNvm.h. -/

def GPNVM_OK : Nat := 0

def GPNVM_ERROR_OPENING_FILE : Nat := 1

def GPNVM_ERROR_ALREADY_INITIALIZED : Nat := 2

def GPNVM_ERROR_NOT_INITIALIZED : Nat := 3

def GPNVM_ERROR_INVALID_PARAMETERS : Nat := 4

def GPNVM_ERROR_INVALID_ATTRIBUTE_ID : Nat := 5

def GPNVM_ERROR_CORRUPTED_ATTRIBUTE : Nat := 6

def GPNVM_ERROR_MEMORY_FULL : Nat := 7

/- Size macros from gpNvm.h / gpNvm.c. -/

def GPNVM_MEMORY_SIZE : Nat := 2048

def GPNVM_MEMORY_INDEX_TABLE_SIZE : Nat := 256

def GPNVM_ATTRIBUTES_CRCS_SIZE : Nat := 256

/-- `GPNVM_MEMORY_SIZE - (sizeof(UInt16)*GPNVM_MEMORY_INDEX_TABLE_SIZE + GPNVM_ATTRIBUTES_CRCS_SIZE)` = 1280. -/
def GPNVM_USER_MEMORY_SIZE : Nat :=
  GPNVM_MEMORY_SIZE - (2 * GPNVM_MEMORY_INDEX_TABLE_SIZE + GPNVM_ATTRIBUTES_CRCS_SIZE)

/-- One round of the inner `j` loop of `gpNvm_CalculateChecksum`:
`if (crc & 0x80) crc = (UInt8)((crc << 1) ^ 0x31); else crc <<= 1;`. -/
def crc8Step (c : Nat) : Nat :=
  if c &&& 0x80 ≠ 0 then ((c <<< 1) ^^^ 0x31) % 256 else (c <<< 1) % 256

/-- `gpNvm_CalculateChecksum(UInt8* ptr, UInt8 length)`: CRC8 with initial value
`0xFF`; for each input byte, xor it in and run the shift round 8 times.
The buffer is a byte function; reads are truncated to a byte as in C. -/
def gpNvm_CalculateChecksum (ptr : Nat → Nat) (length : Nat) : Nat :=
  (List.range length).foldl (fun crc i => crc8Step^[8] (crc ^^^ (ptr i % 256))) 0xFF

/-- The global state of gpNvm.c: the file handle flag
(`gpNvm_FileDescriptor != NULL`), the three cached tables, and the bytes and
size of the file `GPNVM_FILE_NAME` emulating the non-volatile memory. -/
structure NvmState where
  fdOpen : Bool
  memoryIndexTable : Nat → Nat
  attributesCrcTable : Nat → Nat
  memoryCache : Nat → Nat
  fileSize : Nat
  fileBytes : Nat → Nat

/-- Write the three cached tables to the file at their fixed offsets
(the three `fseek`+`fwrite` groups shared by `gpNvm_Init`, `gpNvm_Uninit`
and `gpNvm_SetAttribute`): index table (2-byte little-endian entries) at
offset 0, CRC table at offset 512, user data at offset 768. -/
def flushCache (s : NvmState) : NvmState :=
  { s with
    fileSize := GPNVM_MEMORY_SIZE
    fileBytes := fun i =>
      if i < 512 then
        if i % 2 = 0 then s.memoryIndexTable (i / 2) % 256
        else s.memoryIndexTable (i / 2) / 256 % 256
      else if i < 768 then s.attributesCrcTable (i - 512) % 256
      else s.memoryCache (i - 768) % 256 }

/-- Read the three cached tables back from the file (the three
`fseek`+`fread` groups in `gpNvm_Init`): inverse layout of `flushCache`. -/
def loadCache (s : NvmState) : NvmState :=
  { s with
    memoryIndexTable := fun j => s.fileBytes (2 * j) % 256 + 256 * (s.fileBytes (2 * j + 1) % 256)
    attributesCrcTable := fun j => s.fileBytes (512 + j) % 256
    memoryCache := fun i => s.fileBytes (768 + i) % 256 }

/-- The offset-allocation loop of `gpNvm_SetAttribute` (lines 441-449):
`for(cpt=0;cpt<256;cpt++) if(idx[cpt]!=0xFFFF) off += cache[idx[cpt]] + 1;`
with `attributeOffset` a `UInt16` (each addition truncated mod 2^16).
It only reads the index table and the cache, so running it before or after
the CRC-table update of the insert path makes no difference. -/
def insertOffset (s : NvmState) : Nat :=
  (List.range GPNVM_MEMORY_INDEX_TABLE_SIZE).foldl
    (fun acc cpt =>
      if s.memoryIndexTable cpt % 65536 ≠ 0xFFFF then
        (acc + s.memoryCache (s.memoryIndexTable cpt % 65536) % 256 + 1) % 65536
      else acc) 0

/-- `gpNvm_Init`.  `memset(...,0xFF,...)` over the `UInt16` index table makes
every entry `0xFFFF`; the CRC table and the user data area are filled with
`0xFF`; then all three tables are written to the file.  A non-empty file is
instead loaded into the cache. -/
def gpNvm_Init (s : NvmState) : Nat × NvmState :=
  if s.fdOpen then (GPNVM_ERROR_ALREADY_INITIALIZED, s)
  else
    let s0 : NvmState := { s with fdOpen := true }
    if s0.fileSize = 0 then
      let s1 : NvmState :=
        { s0 with
          memoryIndexTable := fun j =>
            if j < GPNVM_MEMORY_INDEX_TABLE_SIZE then 0xFFFF else s0.memoryIndexTable j
          attributesCrcTable := fun j =>
            if j < GPNVM_ATTRIBUTES_CRCS_SIZE then 0xFF else s0.attributesCrcTable j
          memoryCache := fun i =>
            if i < GPNVM_USER_MEMORY_SIZE then 0xFF else s0.memoryCache i }
      (GPNVM_OK, flushCache s1)
    else
      (GPNVM_OK, loadCache s0)

/-- `gpNvm_Uninit`: write the cache into the file, then close it. -/
def gpNvm_Uninit (s : NvmState) : Nat × NvmState :=
  if s.fdOpen = false then (GPNVM_ERROR_NOT_INITIALIZED, s)
  else (GPNVM_OK, { flushCache s with fdOpen := false })

/-- `gpNvm_GetAttribute`.  The outputs `*pLength`/`pValue` are modelled as the
`Option` component: `none` means the output pointers were never written. -/
def gpNvm_GetAttribute (s : NvmState) (attrId : Nat) : Nat × Option (Nat × List Nat) :=
  if s.fdOpen = false then (GPNVM_ERROR_NOT_INITIALIZED, none)
  else
    let attributeOffset := s.memoryIndexTable attrId % 65536
    if attributeOffset = 0xFFFF then (GPNVM_ERROR_INVALID_ATTRIBUTE_ID, none)
    else
      let attributeCrc := s.attributesCrcTable attrId % 256
      let attributeLength := s.memoryCache attributeOffset % 256
      if gpNvm_CalculateChecksum (fun i => s.memoryCache (attributeOffset + 1 + i))
          attributeLength ≠ attributeCrc then
        (GPNVM_ERROR_CORRUPTED_ATTRIBUTE, none)
      else
        (GPNVM_OK, some (attributeLength,
          (List.range attributeLength).map fun i => s.memoryCache (attributeOffset + 1 + i) % 256))

/-- `gpNvm_SetAttribute`.  The caller's buffer is a byte function `pValue`;
`memcmp`/`memcpy` over `length` bytes become a bounded pointwise comparison
and a ranged function update, with byte truncation at every `UInt8` access. -/
def gpNvm_SetAttribute (s : NvmState) (attrId : Nat) (length : Nat) (pValue : Nat → Nat) :
    Nat × NvmState :=
  if s.fdOpen = false then (GPNVM_ERROR_NOT_INITIALIZED, s)
  else
    let attributeOffset := s.memoryIndexTable attrId % 65536
    if attributeOffset ≠ 0xFFFF then
      -- attribute already stored: in-place update
      let attributeLength := s.memoryCache attributeOffset % 256
      if length ≠ attributeLength then (GPNVM_ERROR_INVALID_PARAMETERS, s)
      else if ∀ i < length, pValue i % 256 = s.memoryCache (attributeOffset + 1 + i) % 256 then
        -- new value identical to the stored one, do nothing
        (GPNVM_OK, s)
      else
        let s1 : NvmState :=
          { s with
            memoryCache := fun k =>
              if attributeOffset + 1 ≤ k ∧ k < attributeOffset + 1 + length then
                pValue (k - (attributeOffset + 1)) % 256
              else s.memoryCache k
            attributesCrcTable := fun j =>
              if j = attrId then gpNvm_CalculateChecksum pValue length
              else s.attributesCrcTable j }
        (GPNVM_OK, flushCache s1)
    else
      -- new attribute: the CRC table is updated BEFORE the capacity check
      let s1 : NvmState :=
        { s with
          attributesCrcTable := fun j =>
            if j = attrId then gpNvm_CalculateChecksum pValue length
            else s.attributesCrcTable j }
      let attributeOffset2 := insertOffset s
      if GPNVM_USER_MEMORY_SIZE ≤ attributeOffset2 then (GPNVM_ERROR_MEMORY_FULL, s1)
      else
        let s2 : NvmState :=
          { s1 with
            memoryIndexTable := fun j =>
              if j = attrId then attributeOffset2 else s1.memoryIndexTable j
            memoryCache := fun k =>
              if k = attributeOffset2 then length % 256
              else if attributeOffset2 + 1 ≤ k ∧ k < attributeOffset2 + 1 + length then
                pValue (k - (attributeOffset2 + 1)) % 256
              else s1.memoryCache k }
        (GPNVM_OK, flushCache s2)

/- Concrete states used by witnesses and counterexamples. -/

/-- A closed component in front of a not-yet-created (size-0) file. -/
def freshClosed : NvmState :=
  { fdOpen := false
    memoryIndexTable := fun _ => 0
    attributesCrcTable := fun _ => 0
    memoryCache := fun _ => 0
    fileSize := 0
    fileBytes := fun _ => 0 }

/-- The component right after a first `gpNvm_Init` on an empty file. -/
def freshOpen : NvmState := (gpNvm_Init freshClosed).2

/-- The number of arena bytes attributed to id `j` by the offset-allocation
loop: `cache[idx[j]] + 1` when `idx[j]` is not the sentinel, else `0`. -/
def insTerm (s : NvmState) (j : Nat) : Nat :=
  if s.memoryIndexTable j % 65536 ≠ 0xFFFF then
    s.memoryCache (s.memoryIndexTable j % 65536) % 256 + 1
  else 0

/-- An open store holding one attribute (id 0, length 1, value byte `0xAA` at
offset 0) whose integrity entry (`0`) does not match the checksum of the
stored value (`0x8B`) — the picture left by external corruption of the CRC
table region of the backing file. -/
def corruptState : NvmState :=
  { fdOpen := true
    memoryIndexTable := fun j => if j = 0 then 0 else 0xFFFF
    attributesCrcTable := fun _ => 0
    memoryCache := fun k => if k = 0 then 1 else if k = 1 then 0xAA else 0
    fileSize := 2048
    fileBytes := fun _ => 0 }

/-- An open store holding five attributes (ids 0-4) of record sizes
256, 256, 256, 256, 246 bytes: 1270 of the 1280 arena bytes are in use. -/
def state1270 : NvmState :=
  { fdOpen := true
    memoryIndexTable := fun j =>
      if j = 0 then 0 else if j = 1 then 256 else if j = 2 then 512
      else if j = 3 then 768 else if j = 4 then 1024 else 0xFFFF
    attributesCrcTable := fun _ => 0
    memoryCache := fun k =>
      if k = 0 ∨ k = 256 ∨ k = 512 ∨ k = 768 then 255 else if k = 1024 then 245 else 0
    fileSize := 2048
    fileBytes := fun _ => 0 }

/-- An open store holding five attributes (ids 0-4) of record size 256 bytes
each: all 1280 arena bytes are in use. -/
def state1280 : NvmState :=
  { fdOpen := true
    memoryIndexTable := fun j =>
      if j = 0 then 0 else if j = 1 then 256 else if j = 2 then 512
      else if j = 3 then 768 else if j = 4 then 1024 else 0xFFFF
    attributesCrcTable := fun _ => 0
    memoryCache := fun k =>
      if k = 0 ∨ k = 256 ∨ k = 512 ∨ k = 768 ∨ k = 1024 then 255 else 0
    fileSize := 2048
    fileBytes := fun _ => 0 }

/-! ## Basic facts about the checksum function -/

/-- Each shift round keeps the CRC a byte. -/
theorem crc8Step_lt (c : Nat) : crc8Step c < 256 := by
  unfold crc8Step
  split <;> exact Nat.mod_lt _ (by norm_num)

/-- Unfolding the outer loop of the checksum by one input byte. -/
theorem gpNvm_CalculateChecksum_succ (p : Nat → Nat) (n : Nat) :
    gpNvm_CalculateChecksum p (n + 1) =
      crc8Step^[8] (gpNvm_CalculateChecksum p n ^^^ p n % 256) := by
  unfold gpNvm_CalculateChecksum
  rw [List.range_succ, List.foldl_append]
  rfl

/-- The checksum is a byte. -/
theorem gpNvm_CalculateChecksum_lt (p : Nat → Nat) (n : Nat) :
    gpNvm_CalculateChecksum p n < 256 := by
  cases n with
  | zero => norm_num [gpNvm_CalculateChecksum]
  | succ n =>
      rw [gpNvm_CalculateChecksum_succ]
      have : (8 : Nat) = 7 + 1 := rfl
      rw [this, Function.iterate_succ_apply']
      exact crc8Step_lt _


/-- The checksum only depends on the bytes (values mod 256) of the buffer. -/
theorem gpNvm_CalculateChecksum_congr (p q : Nat → Nat) (n : Nat)
    (h : ∀ i < n, p i % 256 = q i % 256) :
    gpNvm_CalculateChecksum p n = gpNvm_CalculateChecksum q n := by
  induction n with
  | zero => rfl
  | succ n ih =>
      rw [gpNvm_CalculateChecksum_succ, gpNvm_CalculateChecksum_succ,
        ih (fun i hi => h i (Nat.lt_succ_of_lt hi)), h n (Nat.lt_succ_self n)]

/-! ## Path lemmas for `gpNvm_SetAttribute` -/

/-- Update path, length mismatch: error, state untouched. -/
theorem set_badlen (s : NvmState) (attrId length : Nat) (v : Nat → Nat)
    (hopen : s.fdOpen = true)
    (hst : s.memoryIndexTable attrId % 65536 ≠ 0xFFFF)
    (hlen : length ≠ s.memoryCache (s.memoryIndexTable attrId % 65536) % 256) :
    gpNvm_SetAttribute s attrId length v = (GPNVM_ERROR_INVALID_PARAMETERS, s) := by
  simp only [gpNvm_SetAttribute, hopen, Bool.true_eq_false, if_false, if_pos hst, if_pos hlen]

/-- Update path, new value identical to the stored one: success, no change. -/
theorem set_noop (s : NvmState) (attrId length : Nat) (v : Nat → Nat)
    (hopen : s.fdOpen = true)
    (hst : s.memoryIndexTable attrId % 65536 ≠ 0xFFFF)
    (hlen : length = s.memoryCache (s.memoryIndexTable attrId % 65536) % 256)
    (hsame : ∀ i < length,
      v i % 256 = s.memoryCache (s.memoryIndexTable attrId % 65536 + 1 + i) % 256) :
    gpNvm_SetAttribute s attrId length v = (GPNVM_OK, s) := by
  simp only [gpNvm_SetAttribute, hopen, Bool.true_eq_false, if_false, if_pos hst]
  rw [if_neg (by omega : ¬length ≠ s.memoryCache (s.memoryIndexTable attrId % 65536) % 256),
    if_pos hsame]

/-- Update path, new value differs: in-place overwrite, CRC refresh, flush. -/
theorem set_update (s : NvmState) (attrId length : Nat) (v : Nat → Nat)
    (hopen : s.fdOpen = true)
    (hst : s.memoryIndexTable attrId % 65536 ≠ 0xFFFF)
    (hlen : length = s.memoryCache (s.memoryIndexTable attrId % 65536) % 256)
    (hdiff : ¬ ∀ i < length,
      v i % 256 = s.memoryCache (s.memoryIndexTable attrId % 65536 + 1 + i) % 256) :
    gpNvm_SetAttribute s attrId length v =
      (GPNVM_OK, flushCache
        { s with
          memoryCache := fun k =>
            if s.memoryIndexTable attrId % 65536 + 1 ≤ k ∧
                k < s.memoryIndexTable attrId % 65536 + 1 + length then
              v (k - (s.memoryIndexTable attrId % 65536 + 1)) % 256
            else s.memoryCache k
          attributesCrcTable := fun j =>
            if j = attrId then gpNvm_CalculateChecksum v length
            else s.attributesCrcTable j }) := by
  simp only [gpNvm_SetAttribute, hopen, Bool.true_eq_false, if_false, if_pos hst]
  rw [if_neg (by omega : ¬length ≠ s.memoryCache (s.memoryIndexTable attrId % 65536) % 256),
    if_neg hdiff]

/-- Insert path with room left: new record appended at `insertOffset`, flush. -/
theorem set_insert (s : NvmState) (attrId length : Nat) (v : Nat → Nat)
    (hopen : s.fdOpen = true)
    (hnew : s.memoryIndexTable attrId % 65536 = 0xFFFF)
    (hfit : insertOffset s < GPNVM_USER_MEMORY_SIZE) :
    gpNvm_SetAttribute s attrId length v =
      (GPNVM_OK, flushCache
        { s with
          attributesCrcTable := fun j =>
            if j = attrId then gpNvm_CalculateChecksum v length
            else s.attributesCrcTable j
          memoryIndexTable := fun j =>
            if j = attrId then insertOffset s else s.memoryIndexTable j
          memoryCache := fun k =>
            if k = insertOffset s then length % 256
            else if insertOffset s + 1 ≤ k ∧ k < insertOffset s + 1 + length then
              v (k - (insertOffset s + 1)) % 256
            else s.memoryCache k }) := by
  simp only [gpNvm_SetAttribute, hopen, Bool.true_eq_false, if_false, hnew,
    ne_eq, not_true_eq_false, if_neg (by omega : ¬GPNVM_USER_MEMORY_SIZE ≤ insertOffset s)]

/-- Insert path, no room: `MEMORY_FULL`, but the CRC table entry of `attrId`
has already been overwritten. -/
theorem set_full (s : NvmState) (attrId length : Nat) (v : Nat → Nat)
    (hopen : s.fdOpen = true)
    (hnew : s.memoryIndexTable attrId % 65536 = 0xFFFF)
    (hfull : GPNVM_USER_MEMORY_SIZE ≤ insertOffset s) :
    gpNvm_SetAttribute s attrId length v =
      (GPNVM_ERROR_MEMORY_FULL,
        { s with
          attributesCrcTable := fun j =>
            if j = attrId then gpNvm_CalculateChecksum v length
            else s.attributesCrcTable j }) := by
  simp only [gpNvm_SetAttribute, hopen, Bool.true_eq_false, if_false, hnew,
    ne_eq, not_true_eq_false, if_pos hfull]

/-! ## Path lemmas for `gpNvm_GetAttribute` -/

/-- Stored id with a matching checksum: length and value are returned. -/
theorem get_ok (s : NvmState) (attrId : Nat)
    (hopen : s.fdOpen = true)
    (hst : s.memoryIndexTable attrId % 65536 ≠ 0xFFFF)
    (hcrc : gpNvm_CalculateChecksum
        (fun i => s.memoryCache (s.memoryIndexTable attrId % 65536 + 1 + i))
        (s.memoryCache (s.memoryIndexTable attrId % 65536) % 256)
      = s.attributesCrcTable attrId % 256) :
    gpNvm_GetAttribute s attrId =
      (GPNVM_OK, some (s.memoryCache (s.memoryIndexTable attrId % 65536) % 256,
        (List.range (s.memoryCache (s.memoryIndexTable attrId % 65536) % 256)).map
          fun i => s.memoryCache (s.memoryIndexTable attrId % 65536 + 1 + i) % 256)) := by
  simp only [gpNvm_GetAttribute, hopen, Bool.true_eq_false, if_false, if_neg hst]
  rw [if_neg (by omega : ¬gpNvm_CalculateChecksum
    (fun i => s.memoryCache (s.memoryIndexTable attrId % 65536 + 1 + i))
    (s.memoryCache (s.memoryIndexTable attrId % 65536) % 256)
    ≠ s.attributesCrcTable attrId % 256)]

/-- Stored id whose recomputed checksum disagrees with the integrity entry:
the attribute is reported corrupted and nothing is returned. -/
theorem get_corrupt (s : NvmState) (attrId : Nat)
    (hopen : s.fdOpen = true)
    (hst : s.memoryIndexTable attrId % 65536 ≠ 0xFFFF)
    (hcrc : gpNvm_CalculateChecksum
        (fun i => s.memoryCache (s.memoryIndexTable attrId % 65536 + 1 + i))
        (s.memoryCache (s.memoryIndexTable attrId % 65536) % 256)
      ≠ s.attributesCrcTable attrId % 256) :
    gpNvm_GetAttribute s attrId = (GPNVM_ERROR_CORRUPTED_ATTRIBUTE, none) := by
  simp only [gpNvm_GetAttribute, hopen, Bool.true_eq_false, if_false, if_neg hst, if_pos hcrc]


/-! ## List and reopen helpers -/

/-- Reading a list back element by element with `getD` reproduces it. -/
theorem range_map_getD (w : List Nat) :
    (List.range w.length).map (fun i => w.getD i 0) = w := by
  apply List.ext_getElem
  · simp
  · intro i h1 h2
    simp only [List.getElem_map, List.getElem_range]
    rw [List.getD_eq_getElem w 0 h2]

/-- `gpNvm_GetAttribute` ignores the file fields, hence commutes with a flush. -/
theorem get_flush (s : NvmState) (attrId : Nat) :
    gpNvm_GetAttribute (flushCache s) attrId = gpNvm_GetAttribute s attrId := rfl

/-- `gpNvm_GetAttribute` only depends on the open flag and on the bytes
(values mod the word size) of the three tables. -/
theorem get_congr (s t : NvmState) (attrId : Nat)
    (hfd : t.fdOpen = s.fdOpen)
    (hidx : t.memoryIndexTable attrId % 65536 = s.memoryIndexTable attrId % 65536)
    (hcrc : t.attributesCrcTable attrId % 256 = s.attributesCrcTable attrId % 256)
    (hcache : ∀ i, t.memoryCache i % 256 = s.memoryCache i % 256) :
    gpNvm_GetAttribute t attrId = gpNvm_GetAttribute s attrId := by
  have hchk : gpNvm_CalculateChecksum
      (fun i => t.memoryCache (s.memoryIndexTable attrId % 65536 + 1 + i))
      (s.memoryCache (s.memoryIndexTable attrId % 65536) % 256)
      = gpNvm_CalculateChecksum
      (fun i => s.memoryCache (s.memoryIndexTable attrId % 65536 + 1 + i))
      (s.memoryCache (s.memoryIndexTable attrId % 65536) % 256) :=
    gpNvm_CalculateChecksum_congr _ _ _ (fun i _ => hcache _)
  have hmap : ((List.range (s.memoryCache (s.memoryIndexTable attrId % 65536) % 256)).map
      fun i => t.memoryCache (s.memoryIndexTable attrId % 65536 + 1 + i) % 256)
      = ((List.range (s.memoryCache (s.memoryIndexTable attrId % 65536) % 256)).map
      fun i => s.memoryCache (s.memoryIndexTable attrId % 65536 + 1 + i) % 256) :=
    List.map_congr_left (fun i _ => hcache _)
  simp only [gpNvm_GetAttribute, hfd, hidx, hcache _, hchk, hcrc, hmap]

/-- Loading after flushing recovers each index entry mod 2^16. -/
theorem load_flush_idx (s : NvmState) (b : Bool) (j : Nat) (hj : j < 256) :
    (loadCache { flushCache s with fdOpen := b }).memoryIndexTable j
      = s.memoryIndexTable j % 65536 := by
  simp only [loadCache, flushCache]
  rw [if_pos (by omega : 2 * j < 512), if_pos (by omega : 2 * j + 1 < 512),
    if_pos (by omega : 2 * j % 2 = 0), if_neg (by omega : ¬(2 * j + 1) % 2 = 0),
    (by omega : 2 * j / 2 = j), (by omega : (2 * j + 1) / 2 = j)]
  omega

/-- Loading after flushing recovers each integrity entry mod 2^8. -/
theorem load_flush_crc (s : NvmState) (b : Bool) (j : Nat) (hj : j < 256) :
    (loadCache { flushCache s with fdOpen := b }).attributesCrcTable j
      = s.attributesCrcTable j % 256 := by
  simp only [loadCache, flushCache]
  rw [if_neg (by omega : ¬512 + j < 512), if_pos (by omega : 512 + j < 768),
    (by omega : 512 + j - 512 = j)]
  omega

/-- Loading after flushing recovers each arena byte mod 2^8. -/
theorem load_flush_cache (s : NvmState) (b : Bool) (i : Nat) :
    (loadCache { flushCache s with fdOpen := b }).memoryCache i
      = s.memoryCache i % 256 := by
  simp only [loadCache, flushCache]
  rw [if_neg (by omega : ¬768 + i < 512), if_neg (by omega : ¬768 + i < 768),
    (by omega : 768 + i - 768 = i)]
  omega

/-- A close/open cycle (`gpNvm_Uninit` then `gpNvm_Init`) does not change
what `gpNvm_GetAttribute` returns for any id below 256. -/
theorem get_reopen (s : NvmState) (attrId : Nat) (hopen : s.fdOpen = true)
    (hid : attrId < 256) :
    gpNvm_GetAttribute (gpNvm_Init (gpNvm_Uninit s).2).2 attrId
      = gpNvm_GetAttribute s attrId := by
  have hu : (gpNvm_Uninit s).2 = { flushCache s with fdOpen := false } := by
    simp [gpNvm_Uninit, hopen]
  have hinit : (gpNvm_Init { flushCache s with fdOpen := false }).2
      = loadCache { flushCache s with fdOpen := true } := by
    simp [gpNvm_Init, flushCache, GPNVM_MEMORY_SIZE]
  rw [hu, hinit]
  apply get_congr
  · simp [loadCache, hopen]
  · rw [load_flush_idx s true attrId hid]; omega
  · rw [load_flush_crc s true attrId hid]; omega
  · intro i; rw [load_flush_cache s true i]; omega

/-! ## The insert offset equals the sum of stored record sizes -/

/-- Each summand of the allocation loop is at most 256. -/
theorem insTerm_le (s : NvmState) (j : Nat) : insTerm s j ≤ 256 := by
  unfold insTerm
  split
  · have h := Nat.mod_lt (s.memoryCache (s.memoryIndexTable j % 65536))
      (show 0 < 256 by norm_num)
    omega
  · omega

/-- With at least one id unoccupied, the total record size fits in a `UInt16`. -/
theorem insTerm_sum_lt (s : NvmState) (attrId : Nat) (hid : attrId < 256)
    (hnew : s.memoryIndexTable attrId % 65536 = 0xFFFF) :
    ∑ j ∈ Finset.range 256, insTerm s j < 65536 := by
  have h0 : insTerm s attrId = 0 := by simp [insTerm, hnew]
  have hmem : attrId ∈ Finset.range 256 := Finset.mem_range.mpr hid
  have hs : ∑ j ∈ Finset.range 256, insTerm s j
      = ∑ j ∈ (Finset.range 256).erase attrId, insTerm s j :=
    (Finset.sum_erase _ h0).symm
  rw [hs]
  calc ∑ j ∈ (Finset.range 256).erase attrId, insTerm s j
      ≤ ((Finset.range 256).erase attrId).card • 256 :=
        Finset.sum_le_card_nsmul _ _ _ (fun x _ => insTerm_le s x)
    _ < 65536 := by
        rw [Finset.card_erase_of_mem hmem, Finset.card_range, smul_eq_mul]
        norm_num

/-- As long as the running total stays below 2^16, the `UInt16` accumulation
of the allocation loop computes the exact sum of the first `n` summands. -/
theorem insertOffset_aux (s : NvmState) (n : Nat)
    (h : ∑ j ∈ Finset.range n, insTerm s j < 65536) :
    (List.range n).foldl
      (fun acc cpt =>
        if s.memoryIndexTable cpt % 65536 ≠ 0xFFFF then
          (acc + s.memoryCache (s.memoryIndexTable cpt % 65536) % 256 + 1) % 65536
        else acc) 0
    = ∑ j ∈ Finset.range n, insTerm s j := by
  induction n with
  | zero => simp
  | succ n ih =>
      rw [Finset.sum_range_succ] at h ⊢
      have h2 : ∑ j ∈ Finset.range n, insTerm s j < 65536 := by omega
      rw [List.range_succ, List.foldl_append, ih h2, List.foldl_cons, List.foldl_nil]
      by_cases hc : s.memoryIndexTable n % 65536 ≠ 0xFFFF
      · have ht : insTerm s n = s.memoryCache (s.memoryIndexTable n % 65536) % 256 + 1 := by
          simp [insTerm, hc]
        rw [ht] at h
        rw [if_pos hc, ht]
        omega
      · have ht : insTerm s n = 0 := by unfold insTerm; rw [if_neg hc]
        rw [if_neg hc, ht]
        omega

/-- The offset assigned by the allocation loop to a fresh id equals the sum,
over all non-sentinel ids, of one plus the stored length byte. -/
theorem insertOffset_eq_sum (s : NvmState) (attrId : Nat) (hid : attrId < 256)
    (hnew : s.memoryIndexTable attrId % 65536 = 0xFFFF) :
    insertOffset s = ∑ j ∈ Finset.range 256, insTerm s j := by
  have h := insTerm_sum_lt s attrId hid hnew
  unfold insertOffset GPNVM_MEMORY_INDEX_TABLE_SIZE
  exact insertOffset_aux s 256 h


/-- `gpNvm_SetAttribute` never touches the file handle. -/
theorem set_fdOpen (s : NvmState) (attrId length : Nat) (v : Nat → Nat) :
    (gpNvm_SetAttribute s attrId length v).2.fdOpen = s.fdOpen := by
  unfold gpNvm_SetAttribute
  dsimp only
  repeat' split
  all_goals rfl

/-- A stored id whose record holds the bytes of `w` and whose integrity entry
holds the record's checksum is read back as `(w.length, w)`. -/
theorem get_spec (t : NvmState) (attrId off : Nat) (w : List Nat)
    (hopen : t.fdOpen = true)
    (hoff : t.memoryIndexTable attrId % 65536 = off)
    (hst : off ≠ 0xFFFF)
    (hL : t.memoryCache off % 256 = w.length)
    (hval : ∀ i < w.length, t.memoryCache (off + 1 + i) % 256 = w.getD i 0)
    (hcrc : t.attributesCrcTable attrId % 256
      = gpNvm_CalculateChecksum (fun i => t.memoryCache (off + 1 + i)) w.length) :
    gpNvm_GetAttribute t attrId = (GPNVM_OK, some (w.length, w)) := by
  have hmap : ((List.range w.length).map fun i => t.memoryCache (off + 1 + i) % 256) = w := by
    rw [List.map_congr_left (fun i hi => hval i (List.mem_range.mp hi)), range_map_getD]
  simp only [gpNvm_GetAttribute, hopen, Bool.true_eq_false, if_false, hoff]
  rw [if_neg hst, hL, hcrc, if_neg (fun h => h rfl), hmap]

/-- Core round-trip lemma: after any successful `gpNvm_SetAttribute` of the
bytes of `v` at id `attrId`, `gpNvm_GetAttribute attrId` returns exactly
`(v.length, v)` — provided the integrity entry for `attrId` was consistent
with its stored record beforehand (only relevant to the identical-value
no-op path, which verifies nothing and changes nothing). -/
theorem roundTripAux (s : NvmState) (attrId : Nat) (v : List Nat)
    (hopen : s.fdOpen = true)
    (hlen : v.length ≤ 255)
    (hbytes : ∀ b ∈ v, b < 256)
    (hinv : s.memoryIndexTable attrId % 65536 ≠ 0xFFFF →
      gpNvm_CalculateChecksum
        (fun i => s.memoryCache (s.memoryIndexTable attrId % 65536 + 1 + i))
        (s.memoryCache (s.memoryIndexTable attrId % 65536) % 256)
      = s.attributesCrcTable attrId % 256)
    (hok : (gpNvm_SetAttribute s attrId v.length (fun i => v.getD i 0)).1 = GPNVM_OK) :
    gpNvm_GetAttribute (gpNvm_SetAttribute s attrId v.length (fun i => v.getD i 0)).2 attrId
      = (GPNVM_OK, some (v.length, v)) := by
  have hgetD : ∀ i, i < v.length → v.getD i 0 < 256 := by
    intro i hi
    rw [List.getD_eq_getElem v 0 hi]
    exact hbytes _ (List.getElem_mem hi)
  by_cases hst : s.memoryIndexTable attrId % 65536 = 0xFFFF
  · -- insert path
    by_cases hfit : insertOffset s < GPNVM_USER_MEMORY_SIZE
    · have hfit2 : insertOffset s < 1280 := by
        have hUM : GPNVM_USER_MEMORY_SIZE = 1280 := rfl
        omega
      rw [set_insert s attrId v.length (fun i => v.getD i 0) hopen hst hfit]
      simp only []
      rw [get_flush]
      refine get_spec _ attrId (insertOffset s) v hopen ?_ (by omega) ?_ ?_ ?_
      · simp only []
        rw [if_true]
        omega
      · simp only []
        rw [if_true]
        omega
      · intro i hi
        simp only []
        rw [if_neg (by omega : ¬insertOffset s + 1 + i = insertOffset s),
          if_pos (by omega : insertOffset s + 1 ≤ insertOffset s + 1 + i ∧
            insertOffset s + 1 + i < insertOffset s + 1 + v.length),
          (by omega : insertOffset s + 1 + i - (insertOffset s + 1) = i)]
        have hb := hgetD i hi
        omega
      · simp only []
        rw [if_true, Nat.mod_eq_of_lt (gpNvm_CalculateChecksum_lt _ _)]
        apply gpNvm_CalculateChecksum_congr
        intro i hi
        rw [if_neg (by omega : ¬insertOffset s + 1 + i = insertOffset s),
          if_pos (by omega : insertOffset s + 1 ≤ insertOffset s + 1 + i ∧
            insertOffset s + 1 + i < insertOffset s + 1 + v.length),
          (by omega : insertOffset s + 1 + i - (insertOffset s + 1) = i)]
        omega
    · rw [set_full s attrId v.length (fun i => v.getD i 0) hopen hst (by omega)] at hok
      simp [GPNVM_ERROR_MEMORY_FULL, GPNVM_OK] at hok
  · -- already stored
    by_cases hl : v.length = s.memoryCache (s.memoryIndexTable attrId % 65536) % 256
    · by_cases hsame : ∀ i < v.length,
          v.getD i 0 % 256 = s.memoryCache (s.memoryIndexTable attrId % 65536 + 1 + i) % 256
      · -- identical value: no-op
        rw [set_noop s attrId v.length (fun i => v.getD i 0) hopen hst hl hsame]
        refine get_spec s attrId (s.memoryIndexTable attrId % 65536) v hopen rfl hst
          hl.symm ?_ ?_
        · intro i hi
          rw [← hsame i hi]
          have hb := hgetD i hi
          omega
        · have h := hinv hst
          rw [← hl] at h
          exact h.symm
      · -- value differs: in-place update
        rw [set_update s attrId v.length (fun i => v.getD i 0) hopen hst hl hsame]
        simp only []
        rw [get_flush]
        refine get_spec _ attrId (s.memoryIndexTable attrId % 65536) v hopen ?_ hst ?_ ?_ ?_
        · simp only []
        · simp only []
          rw [if_neg (by omega : ¬(s.memoryIndexTable attrId % 65536 + 1 ≤
              s.memoryIndexTable attrId % 65536 ∧
              s.memoryIndexTable attrId % 65536 <
              s.memoryIndexTable attrId % 65536 + 1 + v.length))]
          exact hl.symm
        · intro i hi
          simp only []
          rw [if_pos (by omega : s.memoryIndexTable attrId % 65536 + 1 ≤
              s.memoryIndexTable attrId % 65536 + 1 + i ∧
              s.memoryIndexTable attrId % 65536 + 1 + i <
              s.memoryIndexTable attrId % 65536 + 1 + v.length),
            (by omega : s.memoryIndexTable attrId % 65536 + 1 + i -
              (s.memoryIndexTable attrId % 65536 + 1) = i)]
          have hb := hgetD i hi
          omega
        · simp only []
          rw [if_true, Nat.mod_eq_of_lt (gpNvm_CalculateChecksum_lt _ _)]
          apply gpNvm_CalculateChecksum_congr
          intro i hi
          rw [if_pos (by omega : s.memoryIndexTable attrId % 65536 + 1 ≤
              s.memoryIndexTable attrId % 65536 + 1 + i ∧
              s.memoryIndexTable attrId % 65536 + 1 + i <
              s.memoryIndexTable attrId % 65536 + 1 + v.length),
            (by omega : s.memoryIndexTable attrId % 65536 + 1 + i -
              (s.memoryIndexTable attrId % 65536 + 1) = i)]
          omega
    · rw [set_badlen s attrId v.length (fun i => v.getD i 0) hopen hst hl] at hok
      simp [GPNVM_ERROR_INVALID_PARAMETERS, GPNVM_OK] at hok


/-- Flushing leaves the cached index table untouched. -/
theorem flushCache_idx (s : NvmState) : (flushCache s).memoryIndexTable = s.memoryIndexTable := rfl

/-- Flushing leaves the cached CRC table untouched. -/
theorem flushCache_crc (s : NvmState) : (flushCache s).attributesCrcTable = s.attributesCrcTable := rfl

/-- Flushing leaves the cached data arena untouched. -/
theorem flushCache_mem (s : NvmState) : (flushCache s).memoryCache = s.memoryCache := rfl

/-- `gpNvm_Init` on a closed component in front of an empty (size-0) backing
file: all-sentinel index table, all-`0xFF` CRC table, `0xFF`-filled arena,
then a full flush. -/
theorem init_empty_state (s : NvmState) (hclosed : s.fdOpen = false)
    (hempty : s.fileSize = 0) :
    gpNvm_Init s = (GPNVM_OK, flushCache
      { s with
        fdOpen := true
        memoryIndexTable := fun j =>
          if j < GPNVM_MEMORY_INDEX_TABLE_SIZE then 0xFFFF else s.memoryIndexTable j
        attributesCrcTable := fun j =>
          if j < GPNVM_ATTRIBUTES_CRCS_SIZE then 0xFF else s.attributesCrcTable j
        memoryCache := fun i =>
          if i < GPNVM_USER_MEMORY_SIZE then 0xFF else s.memoryCache i }) := by
  simp [gpNvm_Init, hclosed, hempty]


/-! ## Claim theorems -/

/-- C3: for every stored attribute id (index entry not the sentinel) and every
new value whose length differs from the stored length byte at that id's
offset, `gpNvm_SetAttribute` fails with `GPNVM_ERROR_INVALID_PARAMETERS` and
leaves the entire store — all three tables (and the backing file) — unchanged. -/
theorem c3_length_mismatch (s : NvmState) (attrId length : Nat) (v : Nat → Nat)
    (hopen : s.fdOpen = true)
    (hst : s.memoryIndexTable attrId % 65536 ≠ 0xFFFF)
    (hlen : length ≠ s.memoryCache (s.memoryIndexTable attrId % 65536) % 256) :
    gpNvm_SetAttribute s attrId length v = (GPNVM_ERROR_INVALID_PARAMETERS, s) :=
  set_badlen s attrId length v hopen hst hlen

/-- Witness for C3: on a store holding a length-1 attribute at id 0, writing
3 bytes to id 0 is rejected and the state is returned unchanged. -/
theorem c3_length_mismatch_witness :
    (corruptState.fdOpen = true ∧
      corruptState.memoryIndexTable 0 % 65536 ≠ 0xFFFF ∧
      (3 : Nat) ≠ corruptState.memoryCache (corruptState.memoryIndexTable 0 % 65536) % 256) ∧
    gpNvm_SetAttribute corruptState 0 3 (fun _ => 9)
      = (GPNVM_ERROR_INVALID_PARAMETERS, corruptState) :=
  ⟨⟨by decide, by decide, by decide⟩,
    c3_length_mismatch corruptState 0 3 (fun _ => 9) (by decide) (by decide) (by decide)⟩

/-- C4: for every stored attribute id, `gpNvm_SetAttribute` with a value
byte-for-byte identical to the stored one returns `GPNVM_OK` and performs no
write at all: the returned state (tables and backing file alike) is exactly
the input state, so `Set(id,v); Set(id,v)` equals a single `Set(id,v)`. -/
theorem c4_idempotent_noop (s : NvmState) (attrId length : Nat) (v : Nat → Nat)
    (hopen : s.fdOpen = true)
    (hst : s.memoryIndexTable attrId % 65536 ≠ 0xFFFF)
    (hlen : length = s.memoryCache (s.memoryIndexTable attrId % 65536) % 256)
    (hsame : ∀ i < length,
      v i % 256 = s.memoryCache (s.memoryIndexTable attrId % 65536 + 1 + i) % 256) :
    gpNvm_SetAttribute s attrId length v = (GPNVM_OK, s) :=
  set_noop s attrId length v hopen hst hlen hsame

/-- Witness for C4: rewriting the stored byte `0xAA` at id 0 succeeds and
returns the state unchanged. -/
theorem c4_idempotent_noop_witness :
    (corruptState.fdOpen = true ∧
      corruptState.memoryIndexTable 0 % 65536 ≠ 0xFFFF ∧
      (1 : Nat) = corruptState.memoryCache (corruptState.memoryIndexTable 0 % 65536) % 256 ∧
      (∀ i < 1, (fun _ => (0xAA : Nat)) i % 256
        = corruptState.memoryCache (corruptState.memoryIndexTable 0 % 65536 + 1 + i) % 256)) ∧
    gpNvm_SetAttribute corruptState 0 1 (fun _ => 0xAA) = (GPNVM_OK, corruptState) :=
  ⟨⟨by decide, by decide, by decide, by decide⟩,
    c4_idempotent_noop corruptState 0 1 (fun _ => 0xAA) (by decide) (by decide) (by decide)
      (by decide)⟩

/-- C5: for every stored attribute id, if the checksum recomputed over the
value bytes in the arena differs from the integrity entry,
`gpNvm_GetAttribute` fails with `GPNVM_ERROR_CORRUPTED_ATTRIBUTE` and returns
nothing (neither length nor value output is written); if they match, it
returns `GPNVM_OK` with the stored length and value bytes. -/
theorem c5_integrity_check (s : NvmState) (attrId : Nat)
    (hopen : s.fdOpen = true)
    (hst : s.memoryIndexTable attrId % 65536 ≠ 0xFFFF) :
    (gpNvm_CalculateChecksum
        (fun i => s.memoryCache (s.memoryIndexTable attrId % 65536 + 1 + i))
        (s.memoryCache (s.memoryIndexTable attrId % 65536) % 256)
      ≠ s.attributesCrcTable attrId % 256 →
      gpNvm_GetAttribute s attrId = (GPNVM_ERROR_CORRUPTED_ATTRIBUTE, none)) ∧
    (gpNvm_CalculateChecksum
        (fun i => s.memoryCache (s.memoryIndexTable attrId % 65536 + 1 + i))
        (s.memoryCache (s.memoryIndexTable attrId % 65536) % 256)
      = s.attributesCrcTable attrId % 256 →
      gpNvm_GetAttribute s attrId = (GPNVM_OK,
        some (s.memoryCache (s.memoryIndexTable attrId % 65536) % 256,
          (List.range (s.memoryCache (s.memoryIndexTable attrId % 65536) % 256)).map
            fun i => s.memoryCache (s.memoryIndexTable attrId % 65536 + 1 + i) % 256))) :=
  ⟨fun h => get_corrupt s attrId hopen hst h, fun h => get_ok s attrId hopen hst h⟩

/-- Witness for C5: on the corrupted store (integrity entry 0, stored byte
`0xAA` whose checksum is `0x8B`), `gpNvm_GetAttribute` reports corruption and
withholds the value. -/
theorem c5_integrity_check_witness :
    (corruptState.fdOpen = true ∧ corruptState.memoryIndexTable 0 % 65536 ≠ 0xFFFF) ∧
    gpNvm_GetAttribute corruptState 0 = (GPNVM_ERROR_CORRUPTED_ATTRIBUTE, none) :=
  ⟨⟨by decide, by decide⟩,
    (c5_integrity_check corruptState 0 (by decide) (by decide)).1 (by decide)⟩

/-- C10: `gpNvm_CalculateChecksum` on a zero-length input returns `0xFF`,
which is exactly the default that `gpNvm_Init` writes into every integrity
entry of a fresh store, so a freshly initialized integrity entry passes
verification against an empty (length-0) value. -/
theorem c10_empty_checksum (s : NvmState) (p : Nat → Nat) (j : Nat)
    (hclosed : s.fdOpen = false) (hempty : s.fileSize = 0) (hj : j < 256) :
    gpNvm_CalculateChecksum p 0 = 0xFF ∧
    (gpNvm_Init s).2.attributesCrcTable j = 0xFF ∧
    gpNvm_CalculateChecksum p 0 = (gpNvm_Init s).2.attributesCrcTable j := by
  have h1 : gpNvm_CalculateChecksum p 0 = 0xFF := rfl
  have h2 : (gpNvm_Init s).2.attributesCrcTable j = 0xFF := by
    rw [init_empty_state s hclosed hempty]
    simp only [flushCache_crc, GPNVM_ATTRIBUTES_CRCS_SIZE]
    rw [if_pos hj]
  exact ⟨h1, h2, by rw [h1, h2]⟩

/-- Witness for C10: a fresh store's integrity entry 0 equals the checksum of
the empty input. -/
theorem c10_empty_checksum_witness :
    (freshClosed.fdOpen = false ∧ freshClosed.fileSize = 0 ∧ (0 : Nat) < 256) ∧
    gpNvm_CalculateChecksum (fun _ => 0) 0 = 0xFF ∧
    (gpNvm_Init freshClosed).2.attributesCrcTable 0 = 0xFF ∧
    gpNvm_CalculateChecksum (fun _ => 0) 0 = (gpNvm_Init freshClosed).2.attributesCrcTable 0 :=
  ⟨⟨by decide, by decide, by decide⟩,
    c10_empty_checksum freshClosed (fun _ => 0) 0 (by decide) (by decide) (by decide)⟩


/-- C1 fails on the code, which is the buggy side here.  The insert capacity
check is `attributeOffset >= GPNVM_USER_MEMORY_SIZE`, not
`offset + 1 + length > capacity`: with 1270 of the 1280 arena bytes in use, a
20-byte insert satisfies `offset + 1 + length > capacity` yet returns
`GPNVM_OK`, assigning offset 1270 and writing past the arena end.  Moreover,
even when `GPNVM_ERROR_MEMORY_FULL` is returned (arena exactly full), the
integrity table entry of the rejected id has already been overwritten, so the
rejection is not atomic. -/
theorem c1_capacity_check_bug :
    insertOffset state1270 = 1270 ∧
    GPNVM_USER_MEMORY_SIZE < 1270 + 1 + 20 ∧
    (gpNvm_SetAttribute state1270 5 20 (fun _ => 1)).1 = GPNVM_OK ∧
    (gpNvm_SetAttribute state1270 5 20 (fun _ => 1)).1 ≠ GPNVM_ERROR_MEMORY_FULL ∧
    (gpNvm_SetAttribute state1270 5 20 (fun _ => 1)).2.memoryIndexTable 5 = 1270 ∧
    insertOffset state1280 = 1280 ∧
    (gpNvm_SetAttribute state1280 5 20 (fun _ => 1)).1 = GPNVM_ERROR_MEMORY_FULL ∧
    (gpNvm_SetAttribute state1280 5 20 (fun _ => 1)).2.attributesCrcTable 5
      ≠ state1280.attributesCrcTable 5 := by
  decide

/-- C2 counterexample: the claim as stated is false.  On an open store whose
integrity entry for id 0 disagrees with the stored record (external
corruption of the CRC region), `gpNvm_SetAttribute` of the identical value
`[0xAA]` succeeds through the no-op path, yet the immediately following
`gpNvm_GetAttribute` reports `GPNVM_ERROR_CORRUPTED_ATTRIBUTE` and returns
nothing. -/
theorem c2_round_trip_counterexample :
    corruptState.fdOpen = true ∧
    (gpNvm_SetAttribute corruptState 0 (List.length [0xAA])
      (fun i => [0xAA].getD i 0)).1 = GPNVM_OK ∧
    gpNvm_GetAttribute (gpNvm_SetAttribute corruptState 0 (List.length [0xAA])
      (fun i => [0xAA].getD i 0)).2 0 = (GPNVM_ERROR_CORRUPTED_ATTRIBUTE, none) ∧
    gpNvm_GetAttribute (gpNvm_SetAttribute corruptState 0 (List.length [0xAA])
      (fun i => [0xAA].getD i 0)).2 0
      ≠ (GPNVM_OK, some (List.length [0xAA], [0xAA])) := by
  decide

/-- C2 (amended): for every attribute id and every byte value `v` of length
0 to 255, if the component is open, the integrity entry of `id` is consistent
with its stored record whenever `id` is already stored (the spec's integrity
invariant, which only external corruption can break), and
`gpNvm_SetAttribute id (len v) v` returns `GPNVM_OK`, then an immediately
following `gpNvm_GetAttribute id` returns `GPNVM_OK` with length `len v` and
exactly the bytes of `v`. -/
theorem c2_round_trip (s : NvmState) (attrId : Nat) (v : List Nat)
    (hopen : s.fdOpen = true)
    (hlen : v.length ≤ 255)
    (hbytes : ∀ b ∈ v, b < 256)
    (hinv : s.memoryIndexTable attrId % 65536 ≠ 0xFFFF →
      gpNvm_CalculateChecksum
        (fun i => s.memoryCache (s.memoryIndexTable attrId % 65536 + 1 + i))
        (s.memoryCache (s.memoryIndexTable attrId % 65536) % 256)
      = s.attributesCrcTable attrId % 256)
    (hok : (gpNvm_SetAttribute s attrId v.length (fun i => v.getD i 0)).1 = GPNVM_OK) :
    gpNvm_GetAttribute (gpNvm_SetAttribute s attrId v.length (fun i => v.getD i 0)).2 attrId
      = (GPNVM_OK, some (v.length, v)) :=
  roundTripAux s attrId v hopen hlen hbytes hinv hok

/-- Witness for C2: storing `[7, 8]` at id 1 of a fresh store and reading it
back returns `(2, [7, 8])`. -/
theorem c2_round_trip_witness :
    (freshOpen.fdOpen = true ∧ List.length [7, 8] ≤ 255 ∧
      (gpNvm_SetAttribute freshOpen 1 (List.length [7, 8])
        (fun i => [7, 8].getD i 0)).1 = GPNVM_OK) ∧
    gpNvm_GetAttribute (gpNvm_SetAttribute freshOpen 1 (List.length [7, 8])
      (fun i => [7, 8].getD i 0)).2 1 = (GPNVM_OK, some (List.length [7, 8], [7, 8])) :=
  ⟨⟨by decide, by decide, by decide⟩,
    c2_round_trip freshOpen 1 [7, 8] (by decide) (by decide) (by decide) (by decide)
      (by decide)⟩

/-- C7 counterexample: the claim as stated is false.  On the externally
corrupted store (integrity entry of id 0 wrong), `gpNvm_SetAttribute` of the
identical value succeeds (no-op path), and after `gpNvm_Uninit` then
`gpNvm_Init` the `gpNvm_GetAttribute` of id 0 reports corruption instead of
returning the value. -/
theorem c7_persistence_counterexample :
    (gpNvm_SetAttribute corruptState 0 (List.length [0xAA])
      (fun i => [0xAA].getD i 0)).1 = GPNVM_OK ∧
    gpNvm_GetAttribute
      (gpNvm_Init (gpNvm_Uninit (gpNvm_SetAttribute corruptState 0 (List.length [0xAA])
        (fun i => [0xAA].getD i 0)).2).2).2 0
      = (GPNVM_ERROR_CORRUPTED_ATTRIBUTE, none) ∧
    gpNvm_GetAttribute
      (gpNvm_Init (gpNvm_Uninit (gpNvm_SetAttribute corruptState 0 (List.length [0xAA])
        (fun i => [0xAA].getD i 0)).2).2).2 0
      ≠ (GPNVM_OK, some (List.length [0xAA], [0xAA])) := by
  decide

/-- C7 (amended): for every id below 256 and byte value `v` of length 0 to
255, if the component is open, the integrity entry of `id` is consistent with
its stored record whenever `id` is already stored (the spec's integrity
invariant), and `gpNvm_SetAttribute id (len v) v` returns `GPNVM_OK`, then
after `gpNvm_Uninit` (flush and close) and `gpNvm_Init` (reload),
`gpNvm_GetAttribute id` returns `GPNVM_OK` with `(len v, v)`. -/
theorem c7_persistence (s : NvmState) (attrId : Nat) (v : List Nat)
    (hopen : s.fdOpen = true)
    (hid : attrId < 256)
    (hlen : v.length ≤ 255)
    (hbytes : ∀ b ∈ v, b < 256)
    (hinv : s.memoryIndexTable attrId % 65536 ≠ 0xFFFF →
      gpNvm_CalculateChecksum
        (fun i => s.memoryCache (s.memoryIndexTable attrId % 65536 + 1 + i))
        (s.memoryCache (s.memoryIndexTable attrId % 65536) % 256)
      = s.attributesCrcTable attrId % 256)
    (hok : (gpNvm_SetAttribute s attrId v.length (fun i => v.getD i 0)).1 = GPNVM_OK) :
    gpNvm_GetAttribute
      (gpNvm_Init (gpNvm_Uninit
        (gpNvm_SetAttribute s attrId v.length (fun i => v.getD i 0)).2).2).2 attrId
      = (GPNVM_OK, some (v.length, v)) := by
  have hfd : (gpNvm_SetAttribute s attrId v.length (fun i => v.getD i 0)).2.fdOpen = true := by
    rw [set_fdOpen]
    exact hopen
  rw [get_reopen _ attrId hfd hid]
  exact roundTripAux s attrId v hopen hlen hbytes hinv hok

/-- Witness for C7: storing `[9]` at id 2 of a fresh store, closing and
reopening, then reading id 2 back returns `(1, [9])`. -/
theorem c7_persistence_witness :
    (freshOpen.fdOpen = true ∧ (2 : Nat) < 256 ∧
      (gpNvm_SetAttribute freshOpen 2 (List.length [9])
        (fun i => [9].getD i 0)).1 = GPNVM_OK) ∧
    gpNvm_GetAttribute
      (gpNvm_Init (gpNvm_Uninit (gpNvm_SetAttribute freshOpen 2 (List.length [9])
        (fun i => [9].getD i 0)).2).2).2 2 = (GPNVM_OK, some (List.length [9], [9])) :=
  ⟨⟨by decide, by decide, by decide⟩,
    c7_persistence freshOpen 2 [9] (by decide) (by decide) (by decide) (by decide)
      (by decide) (by decide)⟩


/-- C6: on every successful insert of a new attribute, the offset assigned to
it equals the sum, over every id whose index entry is not the sentinel, of
one plus the length byte stored at that id's offset; in particular, on an
empty store a 20-byte insert at id 1 is assigned offset 0 and a following
1-byte insert at id 2 is assigned offset 21. -/
theorem c6_insert_offset (s : NvmState) (attrId length : Nat) (v : Nat → Nat)
    (hid : attrId < 256)
    (hnew : s.memoryIndexTable attrId % 65536 = 0xFFFF)
    (hok : (gpNvm_SetAttribute s attrId length v).1 = GPNVM_OK) :
    (gpNvm_SetAttribute s attrId length v).2.memoryIndexTable attrId
      = ∑ j ∈ Finset.range 256, insTerm s j ∧
    (gpNvm_SetAttribute freshOpen 1 20 (fun i => i)).2.memoryIndexTable 1 = 0 ∧
    (gpNvm_SetAttribute (gpNvm_SetAttribute freshOpen 1 20 (fun i => i)).2 2 1
      (fun _ => 0xAA)).2.memoryIndexTable 2 = 21 := by
  refine ⟨?_, by decide, by decide⟩
  have hopen : s.fdOpen = true := by
    by_cases hfd : s.fdOpen = true
    · exact hfd
    · have hfd2 : s.fdOpen = false := by simp at hfd; exact hfd
      simp [gpNvm_SetAttribute, hfd2, GPNVM_ERROR_NOT_INITIALIZED, GPNVM_OK] at hok
  have hfit : insertOffset s < GPNVM_USER_MEMORY_SIZE := by
    by_cases hfull : insertOffset s < GPNVM_USER_MEMORY_SIZE
    · exact hfull
    · rw [set_full s attrId length v hopen hnew (by omega)] at hok
      simp [GPNVM_ERROR_MEMORY_FULL, GPNVM_OK] at hok
  rw [set_insert s attrId length v hopen hnew hfit, ← insertOffset_eq_sum s attrId hid hnew]
  simp only [flushCache_idx]
  rw [if_true]

/-- Witness for C6: the first insert into a fresh store is assigned the sum of
stored record sizes, which is 0. -/
theorem c6_insert_offset_witness :
    ((1 : Nat) < 256 ∧ freshOpen.memoryIndexTable 1 % 65536 = 0xFFFF ∧
      (gpNvm_SetAttribute freshOpen 1 20 (fun i => i)).1 = GPNVM_OK) ∧
    (gpNvm_SetAttribute freshOpen 1 20 (fun i => i)).2.memoryIndexTable 1
      = ∑ j ∈ Finset.range 256, insTerm freshOpen j :=
  ⟨⟨by decide, by decide, by decide⟩,
    (c6_insert_offset freshOpen 1 20 (fun i => i) (by decide) (by decide) (by decide)).1⟩

/-- C8: `gpNvm_Init` in front of a size-0 backing region returns `GPNVM_OK`,
sets every index entry to the sentinel `0xFFFF`, every integrity entry to
`0xFF`, fills the arena with the neutral byte `0xFF`, and writes the three
tables to the backing store at their fixed offsets — index table (512 bytes)
at offset 0, integrity table (256 bytes) at offset 512, arena
(2048 - 768 = 1280 bytes) at offset 768 — with no header or magic number:
every one of the 2048 file bytes belongs to a table and here equals `0xFF`. -/
theorem c8_init_empty (s : NvmState)
    (hclosed : s.fdOpen = false) (hempty : s.fileSize = 0) :
    (gpNvm_Init s).1 = GPNVM_OK ∧
    (∀ j < 256, (gpNvm_Init s).2.memoryIndexTable j = 0xFFFF) ∧
    (∀ j < 256, (gpNvm_Init s).2.attributesCrcTable j = 0xFF) ∧
    (∀ i < 1280, (gpNvm_Init s).2.memoryCache i = 0xFF) ∧
    (∀ j < 256, (gpNvm_Init s).2.fileBytes (2 * j) = 0xFF ∧
      (gpNvm_Init s).2.fileBytes (2 * j + 1) = 0xFF) ∧
    (∀ j < 256, (gpNvm_Init s).2.fileBytes (512 + j) = 0xFF) ∧
    (∀ i < 1280, (gpNvm_Init s).2.fileBytes (768 + i) = 0xFF) ∧
    (gpNvm_Init s).2.fileSize = 2048 := by
  have hinit := init_empty_state s hclosed hempty
  have hUM : GPNVM_USER_MEMORY_SIZE = 1280 := rfl
  have hIT : GPNVM_MEMORY_INDEX_TABLE_SIZE = 256 := rfl
  have hCT : GPNVM_ATTRIBUTES_CRCS_SIZE = 256 := rfl
  refine ⟨by rw [hinit], ?_, ?_, ?_, ?_, ?_, ?_, by rw [hinit]; rfl⟩
  · intro j hj
    rw [hinit]
    simp only [flushCache_idx, hIT]
    rw [if_pos hj]
  · intro j hj
    rw [hinit]
    simp only [flushCache_crc, hCT]
    rw [if_pos hj]
  · intro i hi
    rw [hinit]
    simp only [flushCache_mem, hUM]
    rw [if_pos hi]
  · intro j hj
    rw [hinit]
    constructor
    · simp only [flushCache, hIT, hUM, hCT]
      rw [if_pos (by omega : 2 * j < 512), if_pos (by omega : 2 * j % 2 = 0),
        (by omega : 2 * j / 2 = j), if_pos hj]
    · simp only [flushCache, hIT, hUM, hCT]
      rw [if_pos (by omega : 2 * j + 1 < 512), if_neg (by omega : ¬(2 * j + 1) % 2 = 0),
        (by omega : (2 * j + 1) / 2 = j), if_pos hj]
  · intro j hj
    rw [hinit]
    simp only [flushCache, hIT, hUM, hCT]
    rw [if_neg (by omega : ¬512 + j < 512), if_pos (by omega : 512 + j < 768),
      (by omega : 512 + j - 512 = j), if_pos hj]
  · intro i hi
    rw [hinit]
    simp only [flushCache, hIT, hUM, hCT]
    rw [if_neg (by omega : ¬768 + i < 512), if_neg (by omega : ¬768 + i < 768),
      (by omega : 768 + i - 768 = i), if_pos hi]

/-- Witness for C8: initializing in front of an empty file succeeds and the
first index entry reads as the sentinel. -/
theorem c8_init_empty_witness :
    (freshClosed.fdOpen = false ∧ freshClosed.fileSize = 0) ∧
    (gpNvm_Init freshClosed).1 = GPNVM_OK ∧
    (∀ j < 256, (gpNvm_Init freshClosed).2.memoryIndexTable j = 0xFFFF) :=
  ⟨⟨by decide, by decide⟩,
    (c8_init_empty freshClosed (by decide) (by decide)).1,
    (c8_init_empty freshClosed (by decide) (by decide)).2.1⟩

/-- C9: a successful update-case `gpNvm_SetAttribute` with a differing value
modifies only the value bytes of the id's record (arena positions
`offset + 1` through `offset + length`) and the id's own integrity entry:
the index table is untouched, the length byte at `offset` and every arena
position outside the written range keep their values, every other id's
integrity entry is unchanged, and every other id's record whose positions lie
outside the written range is unchanged byte for byte. -/
theorem c9_update_frame (s : NvmState) (attrId length : Nat) (v : Nat → Nat)
    (hopen : s.fdOpen = true)
    (hst : s.memoryIndexTable attrId % 65536 ≠ 0xFFFF)
    (hlen : length = s.memoryCache (s.memoryIndexTable attrId % 65536) % 256)
    (hdiff : ¬ ∀ i < length,
      v i % 256 = s.memoryCache (s.memoryIndexTable attrId % 65536 + 1 + i) % 256) :
    (gpNvm_SetAttribute s attrId length v).1 = GPNVM_OK ∧
    (∀ j, (gpNvm_SetAttribute s attrId length v).2.memoryIndexTable j
      = s.memoryIndexTable j) ∧
    (gpNvm_SetAttribute s attrId length v).2.memoryCache (s.memoryIndexTable attrId % 65536)
      = s.memoryCache (s.memoryIndexTable attrId % 65536) ∧
    (∀ k, k < s.memoryIndexTable attrId % 65536 + 1 ∨
        s.memoryIndexTable attrId % 65536 + length < k →
      (gpNvm_SetAttribute s attrId length v).2.memoryCache k = s.memoryCache k) ∧
    (∀ j, j ≠ attrId →
      (gpNvm_SetAttribute s attrId length v).2.attributesCrcTable j
        = s.attributesCrcTable j) ∧
    (∀ j, j ≠ attrId → s.memoryIndexTable j % 65536 ≠ 0xFFFF →
      (s.memoryIndexTable j % 65536 + s.memoryCache (s.memoryIndexTable j % 65536) % 256
          < s.memoryIndexTable attrId % 65536 + 1 ∨
        s.memoryIndexTable attrId % 65536 + length < s.memoryIndexTable j % 65536) →
      ∀ k, s.memoryIndexTable j % 65536 ≤ k →
        k ≤ s.memoryIndexTable j % 65536 + s.memoryCache (s.memoryIndexTable j % 65536) % 256 →
        (gpNvm_SetAttribute s attrId length v).2.memoryCache k = s.memoryCache k) := by
  rw [set_update s attrId length v hopen hst hlen hdiff]
  refine ⟨rfl, fun j => rfl, ?_, ?_, ?_, ?_⟩
  · simp only [flushCache_mem]
    rw [if_neg (by omega : ¬(s.memoryIndexTable attrId % 65536 + 1 ≤
        s.memoryIndexTable attrId % 65536 ∧
        s.memoryIndexTable attrId % 65536 < s.memoryIndexTable attrId % 65536 + 1 + length))]
  · intro k hk
    simp only [flushCache_mem]
    rw [if_neg (by omega : ¬(s.memoryIndexTable attrId % 65536 + 1 ≤ k ∧
        k < s.memoryIndexTable attrId % 65536 + 1 + length))]
  · intro j hj
    simp only [flushCache_crc]
    rw [if_neg hj]
  · intro j hj hjst hdisj k hk1 hk2
    simp only [flushCache_mem]
    rw [if_neg (by omega : ¬(s.memoryIndexTable attrId % 65536 + 1 ≤ k ∧
        k < s.memoryIndexTable attrId % 65536 + 1 + length))]

/-- Witness for C9: overwriting the stored byte `0xAA` at id 0 with `0x55`
succeeds and leaves the whole index table unchanged. -/
theorem c9_update_frame_witness :
    (corruptState.fdOpen = true ∧
      corruptState.memoryIndexTable 0 % 65536 ≠ 0xFFFF ∧
      (1 : Nat) = corruptState.memoryCache (corruptState.memoryIndexTable 0 % 65536) % 256 ∧
      ¬ ∀ i < 1, (fun _ => (0x55 : Nat)) i % 256
        = corruptState.memoryCache (corruptState.memoryIndexTable 0 % 65536 + 1 + i) % 256) ∧
    (gpNvm_SetAttribute corruptState 0 1 (fun _ => 0x55)).1 = GPNVM_OK ∧
    (∀ j, (gpNvm_SetAttribute corruptState 0 1 (fun _ => 0x55)).2.memoryIndexTable j
      = corruptState.memoryIndexTable j) :=
  ⟨⟨by decide, by decide, by decide, by decide⟩,
    (c9_update_frame corruptState 0 1 (fun _ => 0x55) (by decide) (by decide) (by decide)
      (by decide)).1,
    (c9_update_frame corruptState 0 1 (fun _ => 0x55) (by decide) (by decide) (by decide)
      (by decide)).2.1⟩

end GpNvm
